import Mathlib

/-!
Shallow embedding of the `CrowdfundingV2` contract (Solidity, `^0.8.20`).

Addresses are modelled as `Nat`, wei amounts as `Nat` (the contract never
subtracts below zero on any path we model), timestamps as `Nat`.  Solidity
mappings are total functions with the zero-value default, exactly as in the
EVM.  A failing `require` reverts the whole call, so every operation is a
function `State → Except Err State` whose error branch discards all
intermediate updates; the wrapper `step` keeps the pre-call state on error,
which is the EVM revert semantics.

The external value transfer `(bool success, ) = payable(x).call{value: a}("")`
is modelled by an oracle `Xfer : Nat → Nat → State → Bool` that observes the
state at the moment of the call (this is how re-entrancy ordering becomes
visible), and successful transfers are recorded in a ghost log
`State.transfers`.  Two further ghost fields instrument the contract without
changing its behaviour: `contributors` (the set of addresses that ever
contributed to a campaign, as a duplicate-free list) and `refunded` (total
amount zeroed out of the contribution mapping by successful refunds).
-/

namespace CrowdfundingV2

structure Milestone where
  description : String
  amount : Nat
  completed : Bool
  released : Bool
  votesFor : Nat
  votesAgainst : Nat
deriving DecidableEq

def defaultMilestone : Milestone :=
  { description := "", amount := 0, completed := false, released := false,
    votesFor := 0, votesAgainst := 0 }

structure Campaign where
  creator : Nat
  title : String
  description : String
  category : String
  imageUrl : String
  goalAmount : Nat
  deadline : Nat
  amountRaised : Nat
  withdrawn : Bool
  exists_ : Bool
  milestoneCount : Nat
deriving DecidableEq

def defaultCampaign : Campaign :=
  { creator := 0, title := "", description := "", category := "", imageUrl := "",
    goalAmount := 0, deadline := 0, amountRaised := 0, withdrawn := false,
    exists_ := false, milestoneCount := 0 }

/-- Error taxonomy of the specification; each constructor carries the
`require` message of the contract. -/
inductive Err where
  | validationError (msg : String)
  | notFoundError (msg : String)
  | stateError (msg : String)
  | authorizationError (msg : String)
  | duplicateVote (msg : String)
  | transferError (msg : String)
deriving DecidableEq

structure State where
  campaignCounter : Nat
  campaigns : Nat → Campaign
  contributions : Nat → Nat → Nat
  milestones : Nat → Nat → Milestone
  milestoneVotes : Nat → Nat → Nat → Bool
  campaignIds : List Nat
  contributors : Nat → List Nat
  refunded : Nat → Nat
  transfers : List (Nat × Nat)

def initialState : State :=
  { campaignCounter := 0, campaigns := fun _ => defaultCampaign,
    contributions := fun _ _ => 0, milestones := fun _ _ => defaultMilestone,
    milestoneVotes := fun _ _ _ => false, campaignIds := [],
    contributors := fun _ => [], refunded := fun _ => 0, transfers := [] }

/-- Outcome of the external value transfer: recipient, amount, and the state
at the moment of the call. -/
abbrev Xfer := Nat → Nat → State → Bool

/-- A transfer target that always accepts. -/
def trueXfer : Xfer := fun _ _ _ => true

/-- One day of wall-clock time, in seconds. -/
def oneDay : Nat := 86400

/-- The contract's `createCampaign`; `require` checks in source order. -/
def createCampaign (s : State) (sender now : Nat)
    (title description category imageUrl : String)
    (goalAmount durationInDays : Nat)
    (mDescs : List String) (mAmts : List Nat) : Except Err State :=
  if goalAmount = 0 then
    .error (.validationError "Goal amount must be greater than 0")
  else if durationInDays = 0 then
    .error (.validationError "Duration must be at least 1 day")
  else if 365 < durationInDays then
    .error (.validationError "Duration cannot exceed 365 days")
  else if title = "" then
    .error (.validationError "Title cannot be empty")
  else if description = "" then
    .error (.validationError "Description cannot be empty")
  else if 0 < mDescs.length ∧ mDescs.length ≠ mAmts.length then
    .error (.validationError "Milestone arrays must match")
  else if 0 < mDescs.length ∧ ¬ (mAmts.all fun a => 0 < a) then
    .error (.validationError "Milestone amount must be greater than 0")
  else if 0 < mDescs.length ∧ mAmts.sum ≠ goalAmount then
    .error (.validationError "Milestone amounts must equal goal")
  else
    .ok { s with
      campaignCounter := s.campaignCounter + 1,
      campaigns := fun c =>
        if c = s.campaignCounter + 1 then
          { creator := sender, title := title, description := description,
            category := category, imageUrl := imageUrl, goalAmount := goalAmount,
            deadline := now + durationInDays * oneDay, amountRaised := 0,
            withdrawn := false, exists_ := true, milestoneCount := mDescs.length }
        else s.campaigns c,
      milestones := fun c i =>
        if c = s.campaignCounter + 1 ∧ i < mDescs.length then
          { description := mDescs.getD i "", amount := mAmts.getD i 0,
            completed := false, released := false, votesFor := 0, votesAgainst := 0 }
        else s.milestones c i,
      campaignIds := s.campaignIds ++ [s.campaignCounter + 1] }

/-- The contract's `contribute`; the ghost `contributors` list records the
sender the first time it contributes to this campaign. -/
def contribute (s : State) (sender now cid value : Nat) : Except Err State :=
  if (s.campaigns cid).exists_ = false then
    .error (.notFoundError "Campaign does not exist")
  else if (s.campaigns cid).deadline ≤ now then
    .error (.stateError "Campaign has ended")
  else if value = 0 then
    .error (.validationError "Contribution must be greater than 0")
  else
    .ok { s with
      contributions := fun c a =>
        if c = cid ∧ a = sender then s.contributions c a + value
        else s.contributions c a,
      campaigns := fun c =>
        if c = cid then
          { s.campaigns c with amountRaised := (s.campaigns c).amountRaised + value }
        else s.campaigns c,
      contributors := fun c =>
        if c = cid ∧ sender ∉ s.contributors cid then sender :: s.contributors c
        else s.contributors c }

/-- The contract's `completeMilestone`. -/
def completeMilestone (s : State) (sender cid mid : Nat) : Except Err State :=
  if (s.campaigns cid).exists_ = false then
    .error (.notFoundError "Campaign does not exist")
  else if sender ≠ (s.campaigns cid).creator then
    .error (.authorizationError "Only campaign creator can call this")
  else if (s.campaigns cid).milestoneCount ≤ mid then
    .error (.notFoundError "Invalid milestone")
  else if (s.campaigns cid).amountRaised < (s.campaigns cid).goalAmount then
    .error (.stateError "Goal not reached")
  else if (s.milestones cid mid).completed then
    .error (.stateError "Milestone already completed")
  else if 0 < mid ∧ (s.milestones cid (mid - 1)).released = false then
    .error (.stateError "Previous milestone must be released first")
  else
    .ok { s with
      milestones := fun c i =>
        if c = cid ∧ i = mid then { s.milestones c i with completed := true }
        else s.milestones c i }

/-- The contract's `voteOnMilestone`. -/
def voteOnMilestone (s : State) (sender cid mid : Nat) (approve : Bool) :
    Except Err State :=
  if (s.campaigns cid).exists_ = false then
    .error (.notFoundError "Campaign does not exist")
  else if s.contributions cid sender = 0 then
    .error (.authorizationError "Only contributors can vote")
  else if (s.campaigns cid).milestoneCount ≤ mid then
    .error (.notFoundError "Invalid milestone")
  else if (s.milestones cid mid).completed = false then
    .error (.stateError "Milestone not completed yet")
  else if (s.milestones cid mid).released then
    .error (.stateError "Milestone already released")
  else if s.milestoneVotes cid mid sender then
    .error (.duplicateVote "Already voted")
  else
    .ok { s with
      milestoneVotes := fun c i a =>
        if c = cid ∧ i = mid ∧ a = sender then true else s.milestoneVotes c i a,
      milestones := fun c i =>
        if c = cid ∧ i = mid then
          if approve then
            { s.milestones c i with
              votesFor := (s.milestones c i).votesFor + s.contributions cid sender }
          else
            { s.milestones c i with
              votesAgainst := (s.milestones c i).votesAgainst + s.contributions cid sender }
        else s.milestones c i }

/-- Ghost transfer log push: the external call succeeded and moved value. -/
def logTransfer (s : State) (toAddr amt : Nat) : State :=
  { s with transfers := (toAddr, amt) :: s.transfers }

/-- The state at the moment `releaseMilestone` performs its external call:
`milestone.released` has already been set. -/
def releaseMark (s : State) (cid mid : Nat) : State :=
  { s with
    milestones := fun c i =>
      if c = cid ∧ i = mid then { s.milestones c i with released := true }
      else s.milestones c i }

/-- The contract's `releaseMilestone`; the transfer oracle observes the
already-mutated state `releaseMark s cid mid`. -/
def releaseMilestone (xfer : Xfer) (s : State) (sender cid mid : Nat) :
    Except Err State :=
  if (s.campaigns cid).exists_ = false then
    .error (.notFoundError "Campaign does not exist")
  else if sender ≠ (s.campaigns cid).creator then
    .error (.authorizationError "Only campaign creator can call this")
  else if (s.campaigns cid).milestoneCount ≤ mid then
    .error (.notFoundError "Invalid milestone")
  else if (s.campaigns cid).amountRaised < (s.campaigns cid).goalAmount then
    .error (.stateError "Goal not reached")
  else if (s.milestones cid mid).completed = false then
    .error (.stateError "Milestone not completed")
  else if (s.milestones cid mid).released then
    .error (.stateError "Already released")
  else if (s.milestones cid mid).votesFor ≤ (s.milestones cid mid).votesAgainst then
    .error (.stateError "Milestone not approved by contributors")
  else if xfer (s.campaigns cid).creator ((s.milestones cid mid).amount) (releaseMark s cid mid) then
    .ok (logTransfer (releaseMark s cid mid) (s.campaigns cid).creator ((s.milestones cid mid).amount))
  else .error (.transferError "Transfer failed")

/-- The state at the moment `withdrawFunds` performs its external call:
`campaign.withdrawn` has already been set. -/
def withdrawMark (s : State) (cid : Nat) : State :=
  { s with
    campaigns := fun c =>
      if c = cid then { s.campaigns c with withdrawn := true } else s.campaigns c }

/-- The contract's `withdrawFunds`; modifier order is `campaignExists`,
`campaignEnded`, `onlyCreator`, then the body checks. -/
def withdrawFunds (xfer : Xfer) (s : State) (sender now cid : Nat) :
    Except Err State :=
  if (s.campaigns cid).exists_ = false then
    .error (.notFoundError "Campaign does not exist")
  else if now < (s.campaigns cid).deadline then
    .error (.stateError "Campaign still active")
  else if sender ≠ (s.campaigns cid).creator then
    .error (.authorizationError "Only campaign creator can call this")
  else if (s.campaigns cid).withdrawn then
    .error (.stateError "Funds already withdrawn")
  else if (s.campaigns cid).amountRaised < (s.campaigns cid).goalAmount then
    .error (.stateError "Funding goal not reached")
  else if (s.campaigns cid).amountRaised = 0 then
    .error (.stateError "No funds to withdraw")
  else if (s.campaigns cid).milestoneCount ≠ 0 then
    .error (.stateError "Use milestone release for this campaign")
  else if xfer (s.campaigns cid).creator ((s.campaigns cid).amountRaised) (withdrawMark s cid) then
    .ok (logTransfer (withdrawMark s cid) (s.campaigns cid).creator ((s.campaigns cid).amountRaised))
  else .error (.transferError "Transfer failed")

/-- The state at the moment `refund` performs its external call: the sender's
contribution entry has already been zeroed (with the ghost `refunded` total
bumped by the zeroed amount). -/
def refundZero (s : State) (cid sender : Nat) : State :=
  { s with
    contributions := fun c a =>
      if c = cid ∧ a = sender then 0 else s.contributions c a,
    refunded := fun c =>
      if c = cid then s.refunded c + s.contributions cid sender else s.refunded c }

/-- The contract's `refund`. -/
def refund (xfer : Xfer) (s : State) (sender now cid : Nat) : Except Err State :=
  if (s.campaigns cid).exists_ = false then
    .error (.notFoundError "Campaign does not exist")
  else if now < (s.campaigns cid).deadline then
    .error (.stateError "Campaign still active")
  else if (s.campaigns cid).goalAmount ≤ (s.campaigns cid).amountRaised then
    .error (.stateError "Campaign was successful, no refunds")
  else if s.contributions cid sender = 0 then
    .error (.stateError "No contribution to refund")
  else if xfer sender (s.contributions cid sender) (refundZero s cid sender) then
    .ok (logTransfer (refundZero s cid sender) sender (s.contributions cid sender))
  else .error (.transferError "Refund transfer failed")

/-- The contract's `getCampaign` view (guarded by `campaignExists`). -/
def getCampaign (s : State) (cid : Nat) : Except Err Campaign :=
  if (s.campaigns cid).exists_ then .ok (s.campaigns cid)
  else .error (.notFoundError "Campaign does not exist")

/-- The contract's `getMilestone` view: a bare mapping read, no guard. -/
def getMilestone (s : State) (cid mid : Nat) : Milestone :=
  s.milestones cid mid

/-- The contract's `getAllMilestones` view (guarded by `campaignExists`). -/
def getAllMilestones (s : State) (cid : Nat) : Except Err (List Milestone) :=
  if (s.campaigns cid).exists_ then
    .ok ((List.range (s.campaigns cid).milestoneCount).map fun i => s.milestones cid i)
  else .error (.notFoundError "Campaign does not exist")

/-- One external call into the contract; `now` is the block timestamp at call
time (the milestone entry points never read it, faithfully to the source). -/
inductive Op where
  | createCampaign (sender now : Nat) (title description category imageUrl : String)
      (goalAmount durationInDays : Nat) (mDescs : List String) (mAmts : List Nat)
  | contribute (sender now cid value : Nat)
  | completeMilestone (sender now cid mid : Nat)
  | voteOnMilestone (sender now cid mid : Nat) (approve : Bool)
  | releaseMilestone (xfer : Xfer) (sender now cid mid : Nat)
  | withdrawFunds (xfer : Xfer) (sender now cid : Nat)
  | refund (xfer : Xfer) (sender now cid : Nat)

def exec (op : Op) (s : State) : Except Err State :=
  match op with
  | .createCampaign sender now t d cat img g dur mds mas =>
      createCampaign s sender now t d cat img g dur mds mas
  | .contribute sender now cid v => contribute s sender now cid v
  | .completeMilestone sender _ cid mid => completeMilestone s sender cid mid
  | .voteOnMilestone sender _ cid mid ap => voteOnMilestone s sender cid mid ap
  | .releaseMilestone xfer sender _ cid mid => releaseMilestone xfer s sender cid mid
  | .withdrawFunds xfer sender now cid => withdrawFunds xfer s sender now cid
  | .refund xfer sender now cid => refund xfer s sender now cid

/-- Transaction semantics: a reverted (failed) call leaves the state as it
was before the call. -/
def step (op : Op) (s : State) : State :=
  match exec op s with
  | .ok s' => s'
  | .error _ => s

def execOk (op : Op) (s : State) : Bool :=
  match exec op s with
  | .ok _ => true
  | .error _ => false

def execErr (op : Op) (s : State) : Option Err :=
  match exec op s with
  | .ok _ => none
  | .error e => some e

def isValidation : Option Err → Bool
  | some (.validationError _) => true
  | _ => false

/-- States reachable from a freshly deployed contract by any sequence of
external calls. -/
inductive Reachable : State → Prop where
  | init : Reachable initialState
  | step (op : Op) {s : State} : Reachable s → Reachable (step op s)

/-- Sum of the recorded contribution entries of one campaign, taken over the
ghost list of its contributors. -/
def contribSum (s : State) (cid : Nat) : Nat :=
  ((s.contributors cid).map (s.contributions cid)).sum

/-- Scenario W: a 10-wei goal campaign without milestones, funded in full,
then withdrawn by its creator after the deadline. -/
def opCreateW : Op := .createCampaign 1 0 "t" "d" "" "" 10 1 [] []

def opContribW : Op := .contribute 2 0 1 10

def sW : State := step opContribW (step opCreateW initialState)

def opWithdrawW : Op := .withdrawFunds trueXfer 1 oneDay 1

def sW3 : State := step opWithdrawW sW

/-- Scenario R: a 10-wei goal campaign that only raises 5, so the contributor
is refunded after the deadline. -/
def opContribR : Op := .contribute 2 0 1 5

def sR : State := step opContribR (step opCreateW initialState)

def opRefundR : Op := .refund trueXfer 2 oneDay 1

def sR3 : State := step opRefundR sR

/-- Scenario M: a campaign with milestone plan [4, 6] summing to the 10-wei
goal, fully funded before its deadline; milestone 0 is completed, approved by
a weight-10 vote, and released, then milestone 1 is completed. -/
def opCreateM : Op := .createCampaign 1 0 "t" "d" "" "" 10 1 ["a", "b"] [4, 6]

def opContribM : Op := .contribute 2 0 1 10

def opCompleteM0 : Op := .completeMilestone 1 0 1 0

def opVoteM0 : Op := .voteOnMilestone 2 0 1 0 true

def sMpre : State := step opCompleteM0 (step opContribM (step opCreateM initialState))

def sM : State := step opVoteM0 sMpre

def opReleaseM0 : Op := .releaseMilestone trueXfer 1 0 1 0

def sM5 : State := step opReleaseM0 sM

def opCompleteM1 : Op := .completeMilestone 1 0 1 1

def sM6 : State := step opCompleteM1 sM5

/-- The inductive state invariant of the contract.  The first three fields
give the contribution-accounting invariant; `goalPos` records that every
existing campaign was created with a positive goal; `fresh` says ids above
the counter are untouched; the milestone fields give the milestone-map
hygiene and the sequential-release ordering. -/
structure Inv (s : State) : Prop where
  nodup : ∀ cid, (s.contributors cid).Nodup
  offList : ∀ cid a, a ∉ s.contributors cid → s.contributions cid a = 0
  raisedEq : ∀ cid, (s.campaigns cid).amountRaised = contribSum s cid + s.refunded cid
  goalPos : ∀ cid, (s.campaigns cid).exists_ = true → 0 < (s.campaigns cid).goalAmount
  fresh : ∀ cid, s.campaignCounter < cid →
    s.campaigns cid = defaultCampaign ∧ s.contributors cid = [] ∧
    s.refunded cid = 0 ∧ ∀ m, s.milestones cid m = defaultMilestone
  msDefault : ∀ cid m,
    (s.campaigns cid).exists_ = false ∨ (s.campaigns cid).milestoneCount ≤ m →
    s.milestones cid m = defaultMilestone
  msOrder : ∀ cid m, 0 < m → (s.milestones cid m).completed = true →
    (s.milestones cid (m - 1)).released = true
  msRelComp : ∀ cid m, (s.milestones cid m).released = true →
    (s.milestones cid m).completed = true

theorem sum_map_update_add {l : List Nat} {f : Nat → Nat} {a v : Nat}
    (hnd : l.Nodup) (ha : a ∈ l) :
    (l.map fun x => if x = a then f x + v else f x).sum = (l.map f).sum + v := by
  induction l with
  | nil => cases ha
  | cons b t ih =>
    rcases List.nodup_cons.mp hnd with ⟨hb, hndt⟩
    rcases List.mem_cons.mp ha with hba | hat
    · subst hba
      have ht : (t.map fun x => if x = a then f x + v else f x) = t.map f := by
        apply List.map_congr_left
        intro x hx
        have hxa : ¬ x = a := fun hxa => hb (hxa ▸ hx)
        simp [hxa]
      rw [List.map_cons, List.sum_cons, List.map_cons, List.sum_cons, ht, if_pos rfl]
      omega
    · have hba : ¬ b = a := fun h => hb (h ▸ hat)
      have ih' := ih hndt hat
      rw [List.map_cons, List.sum_cons, List.map_cons, List.sum_cons, if_neg hba, ih']
      omega

theorem sum_map_update_zero {l : List Nat} {f : Nat → Nat} {a : Nat}
    (hnd : l.Nodup) (ha : a ∈ l) :
    (l.map fun x => if x = a then 0 else f x).sum + f a = (l.map f).sum := by
  induction l with
  | nil => cases ha
  | cons b t ih =>
    rcases List.nodup_cons.mp hnd with ⟨hb, hndt⟩
    rcases List.mem_cons.mp ha with hba | hat
    · subst hba
      have ht : (t.map fun x => if x = a then 0 else f x) = t.map f := by
        apply List.map_congr_left
        intro x hx
        have hxa : ¬ x = a := fun hxa => hb (hxa ▸ hx)
        simp [hxa]
      rw [List.map_cons, List.sum_cons, List.map_cons, List.sum_cons, ht, if_pos rfl]
      omega
    · have hba : ¬ b = a := fun h => hb (h ▸ hat)
      have ih' := ih hndt hat
      rw [List.map_cons, List.sum_cons, List.map_cons, List.sum_cons, if_neg hba]
      omega

theorem inv_initial : Inv initialState := by
  constructor <;> simp [initialState, contribSum, defaultCampaign, defaultMilestone]

theorem createCampaign_ok_elim {s s' : State} {sender now : Nat}
    {title description category imageUrl : String} {goalAmount durationInDays : Nat}
    {mDescs : List String} {mAmts : List Nat}
    (h : createCampaign s sender now title description category imageUrl
      goalAmount durationInDays mDescs mAmts = .ok s') :
    0 < goalAmount ∧
    s' = { s with
      campaignCounter := s.campaignCounter + 1,
      campaigns := fun c =>
        if c = s.campaignCounter + 1 then
          { creator := sender, title := title, description := description,
            category := category, imageUrl := imageUrl, goalAmount := goalAmount,
            deadline := now + durationInDays * oneDay, amountRaised := 0,
            withdrawn := false, exists_ := true, milestoneCount := mDescs.length }
        else s.campaigns c,
      milestones := fun c i =>
        if c = s.campaignCounter + 1 ∧ i < mDescs.length then
          { description := mDescs.getD i "", amount := mAmts.getD i 0,
            completed := false, released := false, votesFor := 0, votesAgainst := 0 }
        else s.milestones c i,
      campaignIds := s.campaignIds ++ [s.campaignCounter + 1] } := by
  unfold createCampaign at h
  split at h
  · exact Except.noConfusion h
  split at h
  · exact Except.noConfusion h
  split at h
  · exact Except.noConfusion h
  split at h
  · exact Except.noConfusion h
  split at h
  · exact Except.noConfusion h
  split at h
  · exact Except.noConfusion h
  split at h
  · exact Except.noConfusion h
  split at h
  · exact Except.noConfusion h
  injection h with h
  rename_i hg _ _ _ _ _ _ _
  exact ⟨by omega, h.symm⟩

theorem contribute_ok_elim {s s' : State} {sender now cid value : Nat}
    (h : contribute s sender now cid value = .ok s') :
    (s.campaigns cid).exists_ = true ∧ now < (s.campaigns cid).deadline ∧ 0 < value ∧
    s' = { s with
      contributions := fun c a =>
        if c = cid ∧ a = sender then s.contributions c a + value
        else s.contributions c a,
      campaigns := fun c =>
        if c = cid then
          { s.campaigns c with amountRaised := (s.campaigns c).amountRaised + value }
        else s.campaigns c,
      contributors := fun c =>
        if c = cid ∧ sender ∉ s.contributors cid then sender :: s.contributors c
        else s.contributors c } := by
  unfold contribute at h
  split at h
  · exact Except.noConfusion h
  split at h
  · exact Except.noConfusion h
  split at h
  · exact Except.noConfusion h
  injection h with h
  rename_i hex hdl hv
  refine ⟨?_, by omega, by omega, h.symm⟩
  revert hex
  cases (s.campaigns cid).exists_ <;> simp

theorem completeMilestone_ok_elim {s s' : State} {sender cid mid : Nat}
    (h : completeMilestone s sender cid mid = .ok s') :
    (s.campaigns cid).exists_ = true ∧ sender = (s.campaigns cid).creator ∧
    mid < (s.campaigns cid).milestoneCount ∧
    (s.campaigns cid).goalAmount ≤ (s.campaigns cid).amountRaised ∧
    (s.milestones cid mid).completed = false ∧
    (0 < mid → (s.milestones cid (mid - 1)).released = true) ∧
    s' = { s with
      milestones := fun c i =>
        if c = cid ∧ i = mid then { s.milestones c i with completed := true }
        else s.milestones c i } := by
  unfold completeMilestone at h
  split at h
  · exact Except.noConfusion h
  split at h
  · exact Except.noConfusion h
  split at h
  · exact Except.noConfusion h
  split at h
  · exact Except.noConfusion h
  split at h
  · exact Except.noConfusion h
  split at h
  · exact Except.noConfusion h
  injection h with h
  rename_i hex hcr hmid hgoal hcomp hprev
  refine ⟨?_, by omega, by omega, by omega, ?_, ?_, h.symm⟩
  · revert hex; cases (s.campaigns cid).exists_ <;> simp
  · revert hcomp; cases (s.milestones cid mid).completed <;> simp
  · intro hm
    rcases Decidable.not_and_iff_or_not.mp hprev with hc | hc
    · omega
    · revert hc; cases (s.milestones cid (mid - 1)).released <;> simp

theorem voteOnMilestone_ok_elim {s s' : State} {sender cid mid : Nat} {approve : Bool}
    (h : voteOnMilestone s sender cid mid approve = .ok s') :
    (s.campaigns cid).exists_ = true ∧ 0 < s.contributions cid sender ∧
    mid < (s.campaigns cid).milestoneCount ∧
    (s.milestones cid mid).completed = true ∧
    (s.milestones cid mid).released = false ∧
    s.milestoneVotes cid mid sender = false ∧
    s' = { s with
      milestoneVotes := fun c i a =>
        if c = cid ∧ i = mid ∧ a = sender then true else s.milestoneVotes c i a,
      milestones := fun c i =>
        if c = cid ∧ i = mid then
          if approve then
            { s.milestones c i with
              votesFor := (s.milestones c i).votesFor + s.contributions cid sender }
          else
            { s.milestones c i with
              votesAgainst := (s.milestones c i).votesAgainst + s.contributions cid sender }
        else s.milestones c i } := by
  unfold voteOnMilestone at h
  split at h
  · exact Except.noConfusion h
  split at h
  · exact Except.noConfusion h
  split at h
  · exact Except.noConfusion h
  split at h
  · exact Except.noConfusion h
  split at h
  · exact Except.noConfusion h
  split at h
  · exact Except.noConfusion h
  injection h with h
  rename_i hex hcon hmid hcomp hrel hvoted
  refine ⟨?_, by omega, by omega, ?_, ?_, ?_, h.symm⟩
  · revert hex; cases (s.campaigns cid).exists_ <;> simp
  · revert hcomp; cases (s.milestones cid mid).completed <;> simp
  · revert hrel; cases (s.milestones cid mid).released <;> simp
  · revert hvoted; cases s.milestoneVotes cid mid sender <;> simp

theorem releaseMilestone_ok_elim {xfer : Xfer} {s s' : State} {sender cid mid : Nat}
    (h : releaseMilestone xfer s sender cid mid = .ok s') :
    (s.campaigns cid).exists_ = true ∧ sender = (s.campaigns cid).creator ∧
    mid < (s.campaigns cid).milestoneCount ∧
    (s.campaigns cid).goalAmount ≤ (s.campaigns cid).amountRaised ∧
    (s.milestones cid mid).completed = true ∧
    (s.milestones cid mid).released = false ∧
    (s.milestones cid mid).votesAgainst < (s.milestones cid mid).votesFor ∧
    xfer (s.campaigns cid).creator ((s.milestones cid mid).amount) (releaseMark s cid mid) = true ∧
    s' = logTransfer (releaseMark s cid mid) (s.campaigns cid).creator
      ((s.milestones cid mid).amount) := by
  unfold releaseMilestone at h
  split at h
  · exact Except.noConfusion h
  split at h
  · exact Except.noConfusion h
  split at h
  · exact Except.noConfusion h
  split at h
  · exact Except.noConfusion h
  split at h
  · exact Except.noConfusion h
  split at h
  · exact Except.noConfusion h
  split at h
  · exact Except.noConfusion h
  split at h
  case isFalse => exact Except.noConfusion h
  injection h with h
  rename_i hex hcr hmid hgoal hcomp hrel hvotes hx
  refine ⟨?_, by omega, by omega, by omega, ?_, ?_, by omega, hx, h.symm⟩
  · revert hex; cases (s.campaigns cid).exists_ <;> simp
  · revert hcomp; cases (s.milestones cid mid).completed <;> simp
  · revert hrel; cases (s.milestones cid mid).released <;> simp

theorem withdrawFunds_ok_elim {xfer : Xfer} {s s' : State} {sender now cid : Nat}
    (h : withdrawFunds xfer s sender now cid = .ok s') :
    (s.campaigns cid).exists_ = true ∧ (s.campaigns cid).deadline ≤ now ∧
    sender = (s.campaigns cid).creator ∧ (s.campaigns cid).withdrawn = false ∧
    (s.campaigns cid).goalAmount ≤ (s.campaigns cid).amountRaised ∧
    0 < (s.campaigns cid).amountRaised ∧ (s.campaigns cid).milestoneCount = 0 ∧
    xfer (s.campaigns cid).creator ((s.campaigns cid).amountRaised) (withdrawMark s cid) = true ∧
    s' = logTransfer (withdrawMark s cid) (s.campaigns cid).creator
      ((s.campaigns cid).amountRaised) := by
  unfold withdrawFunds at h
  split at h
  · exact Except.noConfusion h
  split at h
  · exact Except.noConfusion h
  split at h
  · exact Except.noConfusion h
  split at h
  · exact Except.noConfusion h
  split at h
  · exact Except.noConfusion h
  split at h
  · exact Except.noConfusion h
  split at h
  · exact Except.noConfusion h
  split at h
  case isFalse => exact Except.noConfusion h
  injection h with h
  rename_i hex hdl hcr hwd hgoal hnz hmc hx
  refine ⟨?_, by omega, by omega, ?_, by omega, by omega, by omega, hx, h.symm⟩
  · revert hex; cases (s.campaigns cid).exists_ <;> simp
  · revert hwd; cases (s.campaigns cid).withdrawn <;> simp

theorem refund_ok_elim {xfer : Xfer} {s s' : State} {sender now cid : Nat}
    (h : refund xfer s sender now cid = .ok s') :
    (s.campaigns cid).exists_ = true ∧ (s.campaigns cid).deadline ≤ now ∧
    (s.campaigns cid).amountRaised < (s.campaigns cid).goalAmount ∧
    0 < s.contributions cid sender ∧
    xfer sender (s.contributions cid sender) (refundZero s cid sender) = true ∧
    s' = logTransfer (refundZero s cid sender) sender (s.contributions cid sender) := by
  unfold refund at h
  split at h
  · exact Except.noConfusion h
  split at h
  · exact Except.noConfusion h
  split at h
  · exact Except.noConfusion h
  split at h
  · exact Except.noConfusion h
  split at h
  case isFalse => exact Except.noConfusion h
  injection h with h
  rename_i hex hdl hgoal hz hx
  refine ⟨?_, by omega, by omega, by omega, hx, h.symm⟩
  revert hex
  cases (s.campaigns cid).exists_ <;> simp

theorem sum_new_contributor {l : List Nat} {f : Nat → Nat} {a v : Nat}
    (ha : a ∉ l) (h0 : f a = 0) :
    ((a :: l).map fun x => if x = a then f x + v else f x).sum = (l.map f).sum + v := by
  have ht : (l.map fun x => if x = a then f x + v else f x) = l.map f := by
    apply List.map_congr_left
    intro x hx
    have hxa : ¬ x = a := fun hh => ha (hh ▸ hx)
    simp [hxa]
  rw [List.map_cons, List.sum_cons, if_pos rfl, h0, ht]
  omega

theorem contribute_inv {s s' : State} {sender now cid value : Nat}
    (hI : Inv s) (h : contribute s sender now cid value = .ok s') : Inv s' := by
  obtain ⟨hex, _, _, hs'⟩ := contribute_ok_elim h
  subst hs'
  constructor
  case nodup =>
    intro c
    dsimp only
    by_cases hc : c = cid ∧ sender ∉ s.contributors cid
    · rw [if_pos hc]
      exact List.nodup_cons.mpr ⟨hc.1 ▸ hc.2, hI.nodup c⟩
    · rw [if_neg hc]
      exact hI.nodup c
  case offList =>
    intro c a ha
    dsimp only at ha ⊢
    by_cases hca : c = cid ∧ a = sender
    · rw [if_pos hca]
      rcases hca with ⟨hceq, hae⟩
      subst hceq; subst hae
      by_cases hm : a ∉ s.contributors c
      · rw [if_pos ⟨rfl, hm⟩] at ha
        exact absurd (List.mem_cons_self a _) ha
      · rw [if_neg (fun hh => hm hh.2)] at ha
        exact absurd (not_not.mp hm) ha
    · rw [if_neg hca]
      apply hI.offList c a
      intro hmem
      by_cases hc : c = cid ∧ sender ∉ s.contributors cid
      · rw [if_pos hc] at ha
        exact ha (List.mem_cons_of_mem _ hmem)
      · rw [if_neg hc] at ha
        exact ha hmem
  case raisedEq =>
    intro c
    dsimp only [contribSum]
    by_cases hc : c = cid
    · subst hc
      rw [if_pos rfl]
      dsimp only
      have hmap : ∀ l : List Nat,
          (l.map fun a => if c = c ∧ a = sender then s.contributions c a + value
            else s.contributions c a)
          = l.map fun a => if a = sender then s.contributions c a + value
            else s.contributions c a := by
        intro l
        apply List.map_congr_left
        intro x _
        simp
      by_cases hm : sender ∉ s.contributors c
      · rw [if_pos ⟨rfl, hm⟩, hmap]
        rw [sum_new_contributor hm (hI.offList c sender hm)]
        have := hI.raisedEq c
        dsimp [contribSum] at this
        omega
      · rw [if_neg (fun hh => hm hh.2), hmap]
        rw [sum_map_update_add (hI.nodup c) (not_not.mp hm)]
        have := hI.raisedEq c
        dsimp [contribSum] at this
        omega
    · rw [if_neg hc]
      have hmap : ((if c = cid ∧ sender ∉ s.contributors cid then
            sender :: s.contributors c else s.contributors c).map
          fun a => if c = cid ∧ a = sender then s.contributions c a + value
            else s.contributions c a)
          = (s.contributors c).map (s.contributions c) := by
        rw [if_neg (fun hh => hc hh.1)]
        apply List.map_congr_left
        intro x _
        rw [if_neg (fun hh => hc hh.1)]
      rw [hmap]
      exact hI.raisedEq c
  case goalPos =>
    intro c
    dsimp only
    by_cases hc : c = cid
    · rw [if_pos hc]
      exact hI.goalPos c
    · rw [if_neg hc]
      exact hI.goalPos c
  case fresh =>
    intro c hcc
    dsimp only at hcc ⊢
    have hfr := hI.fresh c hcc
    have hcne : ¬ c = cid := by
      intro hh
      subst hh
      rw [hfr.1] at hex
      simp [defaultCampaign] at hex
    refine ⟨?_, ?_, hfr.2.2.1, hfr.2.2.2⟩
    · rw [if_neg hcne]
      exact hfr.1
    · rw [if_neg (fun hh => hcne hh.1)]
      exact hfr.2.1
  case msDefault =>
    intro c m hm
    dsimp only at hm ⊢
    apply hI.msDefault c m
    by_cases hc : c = cid
    · rw [if_pos hc] at hm
      rcases hm with hm | hm
      · exact Or.inl hm
      · exact Or.inr hm
    · rw [if_neg hc] at hm
      exact hm
  case msOrder =>
    exact hI.msOrder
  case msRelComp =>
    exact hI.msRelComp

theorem createCampaign_inv {s s' : State} {sender now : Nat}
    {title description category imageUrl : String} {goalAmount durationInDays : Nat}
    {mDescs : List String} {mAmts : List Nat}
    (hI : Inv s)
    (h : createCampaign s sender now title description category imageUrl
      goalAmount durationInDays mDescs mAmts = .ok s') : Inv s' := by
  obtain ⟨hg, hs'⟩ := createCampaign_ok_elim h
  subst hs'
  constructor
  case nodup => exact hI.nodup
  case offList => exact hI.offList
  case raisedEq =>
    intro c
    dsimp only [contribSum]
    by_cases hc : c = s.campaignCounter + 1
    · subst hc
      rw [if_pos rfl]
      have hfr := hI.fresh (s.campaignCounter + 1) (by omega)
      rw [hfr.2.1, hfr.2.2.1]
      simp
    · rw [if_neg hc]
      exact hI.raisedEq c
  case goalPos =>
    intro c hexc
    dsimp only at hexc ⊢
    by_cases hc : c = s.campaignCounter + 1
    · rw [if_pos hc]
      exact hg
    · rw [if_neg hc] at hexc ⊢
      exact hI.goalPos c hexc
  case fresh =>
    intro c hcc
    dsimp only at hcc ⊢
    have hfr := hI.fresh c (by omega)
    have hcne : ¬ c = s.campaignCounter + 1 := by omega
    refine ⟨?_, hfr.2.1, hfr.2.2.1, ?_⟩
    · rw [if_neg hcne]
      exact hfr.1
    · intro m
      rw [if_neg (fun hh => hcne hh.1)]
      exact hfr.2.2.2 m
  case msDefault =>
    intro c m hm
    dsimp only at hm ⊢
    by_cases hc : c = s.campaignCounter + 1
    · subst hc
      rw [if_pos rfl] at hm
      have hmlen : mDescs.length ≤ m := by
        rcases hm with hm | hm
        · exact absurd hm (by simp)
        · exact hm
      rw [if_neg (fun hh => absurd hh.2 (by omega))]
      exact (hI.fresh _ (by omega)).2.2.2 m
    · rw [if_neg hc] at hm
      rw [if_neg (fun hh => hc hh.1)]
      exact hI.msDefault c m hm
  case msOrder =>
    intro c m hm0 hcomp
    dsimp only at hcomp ⊢
    by_cases hc1 : c = s.campaignCounter + 1 ∧ m < mDescs.length
    · rw [if_pos hc1] at hcomp
      exact absurd hcomp (by simp)
    · rw [if_neg hc1] at hcomp
      by_cases hcN : c = s.campaignCounter + 1
      · exfalso
        have hdef := (hI.fresh c (by omega)).2.2.2 m
        rw [hdef] at hcomp
        simp [defaultMilestone] at hcomp
      · rw [if_neg (fun hh => hcN hh.1)]
        exact hI.msOrder c m hm0 hcomp
  case msRelComp =>
    intro c m hrel
    dsimp only at hrel ⊢
    by_cases hc1 : c = s.campaignCounter + 1 ∧ m < mDescs.length
    · rw [if_pos hc1] at hrel
      exact absurd hrel (by simp)
    · rw [if_neg hc1] at hrel ⊢
      exact hI.msRelComp c m hrel

theorem completeMilestone_inv {s s' : State} {sender cid mid : Nat}
    (hI : Inv s) (h : completeMilestone s sender cid mid = .ok s') : Inv s' := by
  obtain ⟨hex, _, hmid, _, _, hprev, hs'⟩ := completeMilestone_ok_elim h
  subst hs'
  constructor
  case nodup => exact hI.nodup
  case offList => exact hI.offList
  case raisedEq => exact hI.raisedEq
  case goalPos => exact hI.goalPos
  case fresh =>
    intro c hcc
    dsimp only at hcc ⊢
    have hfr := hI.fresh c hcc
    have hcne : ¬ c = cid := by
      intro hh
      subst hh
      rw [hfr.1] at hex
      simp [defaultCampaign] at hex
    refine ⟨hfr.1, hfr.2.1, hfr.2.2.1, ?_⟩
    intro m
    rw [if_neg (fun hh => hcne hh.1)]
    exact hfr.2.2.2 m
  case msDefault =>
    intro c m hm
    dsimp only at hm ⊢
    by_cases hc1 : c = cid ∧ m = mid
    · exfalso
      rcases hm with hm | hm
      · rw [hc1.1] at hm
        rw [hex] at hm
        exact absurd hm (by simp)
      · rw [hc1.1, hc1.2] at hm
        omega
    · rw [if_neg hc1]
      exact hI.msDefault c m hm
  case msOrder =>
    intro c m hm0 hcomp
    dsimp only at hcomp ⊢
    by_cases hc1 : c = cid ∧ m = mid
    · rcases hc1 with ⟨hc, hm⟩
      subst hc; subst hm
      rw [if_neg (fun hh => absurd hh.2 (by omega))]
      exact hprev hm0
    · rw [if_neg hc1] at hcomp
      have hrel := hI.msOrder c m hm0 hcomp
      by_cases hc2 : c = cid ∧ m - 1 = mid
      · rw [if_pos hc2]
        exact hrel
      · rw [if_neg hc2]
        exact hrel
  case msRelComp =>
    intro c m hrel
    dsimp only at hrel ⊢
    by_cases hc1 : c = cid ∧ m = mid
    · rw [if_pos hc1]
    · rw [if_neg hc1] at hrel ⊢
      exact hI.msRelComp c m hrel

theorem voteOnMilestone_inv {s s' : State} {sender cid mid : Nat} {approve : Bool}
    (hI : Inv s) (h : voteOnMilestone s sender cid mid approve = .ok s') : Inv s' := by
  obtain ⟨hex, _, hmid, _, _, _, hs'⟩ := voteOnMilestone_ok_elim h
  subst hs'
  constructor
  case nodup => exact hI.nodup
  case offList => exact hI.offList
  case raisedEq => exact hI.raisedEq
  case goalPos => exact hI.goalPos
  case fresh =>
    intro c hcc
    dsimp only at hcc ⊢
    have hfr := hI.fresh c hcc
    have hcne : ¬ c = cid := by
      intro hh
      subst hh
      rw [hfr.1] at hex
      simp [defaultCampaign] at hex
    refine ⟨hfr.1, hfr.2.1, hfr.2.2.1, ?_⟩
    intro m
    rw [if_neg (fun hh => hcne hh.1)]
    exact hfr.2.2.2 m
  case msDefault =>
    intro c m hm
    dsimp only at hm ⊢
    by_cases hc1 : c = cid ∧ m = mid
    · exfalso
      rcases hm with hm | hm
      · rw [hc1.1, hex] at hm
        exact absurd hm (by simp)
      · rw [hc1.1, hc1.2] at hm
        omega
    · rw [if_neg hc1]
      exact hI.msDefault c m hm
  case msOrder =>
    intro c m hm0 hcomp
    dsimp only at hcomp ⊢
    have hcomp' : (s.milestones c m).completed = true := by
      by_cases hc1 : c = cid ∧ m = mid
      · rw [if_pos hc1] at hcomp
        cases approve <;> simpa using hcomp
      · rw [if_neg hc1] at hcomp
        exact hcomp
    have hrel := hI.msOrder c m hm0 hcomp'
    by_cases hc2 : c = cid ∧ m - 1 = mid
    · rw [if_pos hc2]
      cases approve <;> simpa using hrel
    · rw [if_neg hc2]
      exact hrel
  case msRelComp =>
    intro c m hrel
    dsimp only at hrel ⊢
    by_cases hc1 : c = cid ∧ m = mid
    · rw [if_pos hc1] at hrel ⊢
      have hrel' : (s.milestones c m).released = true := by
        cases approve <;> simpa using hrel
      have := hI.msRelComp c m hrel'
      cases approve <;> simpa using this
    · rw [if_neg hc1] at hrel ⊢
      exact hI.msRelComp c m hrel

theorem releaseMilestone_inv {xfer : Xfer} {s s' : State} {sender cid mid : Nat}
    (hI : Inv s) (h : releaseMilestone xfer s sender cid mid = .ok s') : Inv s' := by
  obtain ⟨hex, _, hmid, _, hcomp, _, _, _, hs'⟩ := releaseMilestone_ok_elim h
  subst hs'
  constructor
  case nodup => exact hI.nodup
  case offList => exact hI.offList
  case raisedEq => exact hI.raisedEq
  case goalPos => exact hI.goalPos
  case fresh =>
    intro c hcc
    dsimp only [logTransfer, releaseMark] at hcc ⊢
    have hfr := hI.fresh c hcc
    have hcne : ¬ c = cid := by
      intro hh
      subst hh
      rw [hfr.1] at hex
      simp [defaultCampaign] at hex
    refine ⟨hfr.1, hfr.2.1, hfr.2.2.1, ?_⟩
    intro m
    rw [if_neg (fun hh => hcne hh.1)]
    exact hfr.2.2.2 m
  case msDefault =>
    intro c m hm
    dsimp only [logTransfer, releaseMark] at hm ⊢
    by_cases hc1 : c = cid ∧ m = mid
    · exfalso
      rcases hm with hm | hm
      · rw [hc1.1, hex] at hm
        exact absurd hm (by simp)
      · rw [hc1.1, hc1.2] at hm
        omega
    · rw [if_neg hc1]
      exact hI.msDefault c m hm
  case msOrder =>
    intro c m hm0 hcompN
    dsimp only [logTransfer, releaseMark] at hcompN ⊢
    have hcomp' : (s.milestones c m).completed = true := by
      by_cases hc1 : c = cid ∧ m = mid
      · rw [if_pos hc1] at hcompN
        exact hcompN
      · rw [if_neg hc1] at hcompN
        exact hcompN
    have hrel := hI.msOrder c m hm0 hcomp'
    by_cases hc2 : c = cid ∧ m - 1 = mid
    · rw [if_pos hc2]
    · rw [if_neg hc2]
      exact hrel
  case msRelComp =>
    intro c m hrel
    dsimp only [logTransfer, releaseMark] at hrel ⊢
    by_cases hc1 : c = cid ∧ m = mid
    · rw [if_pos hc1]
      rw [hc1.1, hc1.2]
      exact hcomp
    · rw [if_neg hc1] at hrel ⊢
      exact hI.msRelComp c m hrel

theorem withdrawFunds_inv {xfer : Xfer} {s s' : State} {sender now cid : Nat}
    (hI : Inv s) (h : withdrawFunds xfer s sender now cid = .ok s') : Inv s' := by
  obtain ⟨hex, _, _, _, _, _, _, _, hs'⟩ := withdrawFunds_ok_elim h
  subst hs'
  constructor
  case nodup => exact hI.nodup
  case offList => exact hI.offList
  case raisedEq =>
    intro c
    dsimp only [logTransfer, withdrawMark, contribSum]
    by_cases hc : c = cid
    · rw [if_pos hc]
      exact hI.raisedEq c
    · rw [if_neg hc]
      exact hI.raisedEq c
  case goalPos =>
    intro c hexc
    dsimp only [logTransfer, withdrawMark] at hexc ⊢
    by_cases hc : c = cid
    · rw [if_pos hc] at hexc ⊢
      exact hI.goalPos c hexc
    · rw [if_neg hc] at hexc ⊢
      exact hI.goalPos c hexc
  case fresh =>
    intro c hcc
    dsimp only [logTransfer, withdrawMark] at hcc ⊢
    have hfr := hI.fresh c hcc
    have hcne : ¬ c = cid := by
      intro hh
      subst hh
      rw [hfr.1] at hex
      simp [defaultCampaign] at hex
    refine ⟨?_, hfr.2.1, hfr.2.2.1, hfr.2.2.2⟩
    rw [if_neg hcne]
    exact hfr.1
  case msDefault =>
    intro c m hm
    dsimp only [logTransfer, withdrawMark] at hm ⊢
    apply hI.msDefault c m
    by_cases hc : c = cid
    · rw [if_pos hc] at hm
      exact hm
    · rw [if_neg hc] at hm
      exact hm
  case msOrder => exact hI.msOrder
  case msRelComp => exact hI.msRelComp

theorem refund_inv {xfer : Xfer} {s s' : State} {sender now cid : Nat}
    (hI : Inv s) (h : refund xfer s sender now cid = .ok s') : Inv s' := by
  obtain ⟨hex, _, _, hz, _, hs'⟩ := refund_ok_elim h
  subst hs'
  constructor
  case nodup => exact hI.nodup
  case offList =>
    intro c a ha
    dsimp only [logTransfer, refundZero] at ha ⊢
    by_cases hca : c = cid ∧ a = sender
    · rw [if_pos hca]
    · rw [if_neg hca]
      exact hI.offList c a ha
  case raisedEq =>
    intro c
    dsimp only [logTransfer, refundZero, contribSum]
    by_cases hc : c = cid
    · subst hc
      rw [if_pos rfl]
      have hmem : sender ∈ s.contributors c := by
        by_contra hnm
        rw [hI.offList c sender hnm] at hz
        omega
      have hmap : ∀ l : List Nat,
          (l.map fun a => if c = c ∧ a = sender then 0 else s.contributions c a)
          = l.map fun a => if a = sender then 0 else s.contributions c a := by
        intro l
        apply List.map_congr_left
        intro x _
        simp
      rw [hmap]
      have hsum := sum_map_update_zero (f := s.contributions c) (hI.nodup c) hmem
      have hre := hI.raisedEq c
      dsimp only [contribSum] at hre
      omega
    · rw [if_neg hc]
      have hmap : ((s.contributors c).map
          fun a => if c = cid ∧ a = sender then 0 else s.contributions c a)
          = (s.contributors c).map (s.contributions c) := by
        apply List.map_congr_left
        intro x _
        rw [if_neg (fun hh => hc hh.1)]
      rw [hmap]
      exact hI.raisedEq c
  case goalPos => exact hI.goalPos
  case fresh =>
    intro c hcc
    dsimp only [logTransfer, refundZero] at hcc ⊢
    have hfr := hI.fresh c hcc
    have hcne : ¬ c = cid := by
      intro hh
      subst hh
      rw [hfr.1] at hex
      simp [defaultCampaign] at hex
    refine ⟨hfr.1, hfr.2.1, ?_, hfr.2.2.2⟩
    rw [if_neg hcne]
    exact hfr.2.2.1
  case msDefault => exact hI.msDefault
  case msOrder => exact hI.msOrder
  case msRelComp => exact hI.msRelComp

theorem inv_step (op : Op) {s : State} (hI : Inv s) : Inv (step op s) := by
  rcases hE : exec op s with e | s'
  · unfold step
    rw [hE]
    exact hI
  · unfold step
    rw [hE]
    cases op with
    | createCampaign sender now t d cat img g dur mds mas =>
        exact createCampaign_inv hI hE
    | contribute sender now cid v =>
        exact contribute_inv hI hE
    | completeMilestone sender now cid mid =>
        exact completeMilestone_inv hI hE
    | voteOnMilestone sender now cid mid ap =>
        exact voteOnMilestone_inv hI hE
    | releaseMilestone xfer sender now cid mid =>
        exact releaseMilestone_inv hI hE
    | withdrawFunds xfer sender now cid =>
        exact withdrawFunds_inv hI hE
    | refund xfer sender now cid =>
        exact refund_inv hI hE

theorem inv_reachable {s : State} (h : Reachable s) : Inv s := by
  induction h with
  | init => exact inv_initial
  | step op _ ih => exact inv_step op ih

theorem execOk_true_iff {op : Op} {s : State} :
    execOk op s = true ↔ ∃ s', exec op s = .ok s' := by
  unfold execOk
  rcases exec op s with e | s' <;> simp

theorem exec_eq_ok_of_execOk (op : Op) (s : State) (h : execOk op s = true) :
    exec op s = .ok (step op s) := by
  unfold execOk at h
  unfold step
  rcases hE : exec op s with e | s'
  · rw [hE] at h
    exact absurd h (by simp)
  · rfl

theorem step_eq_of_error {op : Op} {s : State} {e : Err}
    (h : exec op s = .error e) : step op s = s := by
  unfold step
  rw [h]

theorem reachable_sW : Reachable sW :=
  Reachable.step opContribW (Reachable.step opCreateW Reachable.init)

theorem reachable_sR : Reachable sR :=
  Reachable.step opContribR (Reachable.step opCreateW Reachable.init)

theorem reachable_sM : Reachable sM :=
  Reachable.step opVoteM0 (Reachable.step opCompleteM0
    (Reachable.step opContribM (Reachable.step opCreateM Reachable.init)))

theorem reachable_sM6 : Reachable sM6 :=
  Reachable.step opCompleteM1 (Reachable.step opReleaseM0 reachable_sM)

theorem withdrawFunds_eq (xfer : Xfer) (s : State) (sender now cid : Nat)
    (hex : (s.campaigns cid).exists_ = true)
    (hdl : (s.campaigns cid).deadline ≤ now)
    (hcr : sender = (s.campaigns cid).creator)
    (hwd : (s.campaigns cid).withdrawn = false)
    (hgoal : (s.campaigns cid).goalAmount ≤ (s.campaigns cid).amountRaised)
    (hnz : 0 < (s.campaigns cid).amountRaised)
    (hmc : (s.campaigns cid).milestoneCount = 0) :
    withdrawFunds xfer s sender now cid =
      if xfer (s.campaigns cid).creator ((s.campaigns cid).amountRaised) (withdrawMark s cid) then
        .ok (logTransfer (withdrawMark s cid) (s.campaigns cid).creator
          ((s.campaigns cid).amountRaised))
      else .error (.transferError "Transfer failed") := by
  unfold withdrawFunds
  rw [if_neg (by simp [hex]), if_neg (by omega), if_neg (by omega),
    if_neg (by simp [hwd]), if_neg (by omega), if_neg (by omega), if_neg (by omega)]

theorem withdrawFunds_already (xfer : Xfer) (s : State) (sender now cid : Nat)
    (hex : (s.campaigns cid).exists_ = true)
    (hdl : (s.campaigns cid).deadline ≤ now)
    (hcr : sender = (s.campaigns cid).creator)
    (hwd : (s.campaigns cid).withdrawn = true) :
    withdrawFunds xfer s sender now cid = .error (.stateError "Funds already withdrawn") := by
  unfold withdrawFunds
  rw [if_neg (by simp [hex]), if_neg (by omega), if_neg (by omega), if_pos hwd]

theorem withdrawFunds_not_ok_of_withdrawn {xfer : Xfer} {s : State}
    {sender now cid : Nat} (hwd : (s.campaigns cid).withdrawn = true) :
    ∀ s', withdrawFunds xfer s sender now cid ≠ .ok s' := by
  intro s' hok
  have helim := withdrawFunds_ok_elim hok
  rw [hwd] at helim
  exact absurd helim.2.2.2.1 (by simp)

theorem refund_eq (xfer : Xfer) (s : State) (sender now cid : Nat)
    (hex : (s.campaigns cid).exists_ = true)
    (hdl : (s.campaigns cid).deadline ≤ now)
    (hlt : (s.campaigns cid).amountRaised < (s.campaigns cid).goalAmount)
    (hbal : 0 < s.contributions cid sender) :
    refund xfer s sender now cid =
      if xfer sender (s.contributions cid sender) (refundZero s cid sender) then
        .ok (logTransfer (refundZero s cid sender) sender (s.contributions cid sender))
      else .error (.transferError "Refund transfer failed") := by
  unfold refund
  rw [if_neg (by simp [hex]), if_neg (by omega), if_neg (by omega), if_neg (by omega)]

theorem refund_nocontrib (xfer : Xfer) (s : State) (sender now cid : Nat)
    (hex : (s.campaigns cid).exists_ = true)
    (hdl : (s.campaigns cid).deadline ≤ now)
    (hlt : (s.campaigns cid).amountRaised < (s.campaigns cid).goalAmount)
    (hbal : s.contributions cid sender = 0) :
    refund xfer s sender now cid = .error (.stateError "No contribution to refund") := by
  unfold refund
  rw [if_neg (by simp [hex]), if_neg (by omega), if_neg (by omega), if_pos hbal]

theorem refund_not_ok_of_zero {xfer : Xfer} {s : State} {sender now cid : Nat}
    (hbal : s.contributions cid sender = 0) :
    ∀ s', refund xfer s sender now cid ≠ .ok s' := by
  intro s' hok
  have helim := refund_ok_elim hok
  omega

theorem voteOnMilestone_dup (s : State) (sender cid mid : Nat) (approve : Bool)
    (hex : (s.campaigns cid).exists_ = true)
    (hcon : 0 < s.contributions cid sender)
    (hmid : mid < (s.campaigns cid).milestoneCount)
    (hcomp : (s.milestones cid mid).completed = true)
    (hrel : (s.milestones cid mid).released = false)
    (hvoted : s.milestoneVotes cid mid sender = true) :
    voteOnMilestone s sender cid mid approve = .error (.duplicateVote "Already voted") := by
  unfold voteOnMilestone
  rw [if_neg (by simp [hex]), if_neg (by omega), if_neg (by omega),
    if_neg (by simp [hcomp]), if_neg (by simp [hrel]), if_pos hvoted]

/-- Claim C1: in every reachable state, every campaign's `amountRaised` equals
the sum of its per-contributor contribution entries plus the total zeroed out
by refunds (the equality net of refund zeroing), and every operation
preserves this equality. -/
theorem c1_ledger_invariant {s : State} (h : Reachable s) (cid : Nat) :
    (s.campaigns cid).amountRaised = contribSum s cid + s.refunded cid ∧
    ∀ op : Op, ((step op s).campaigns cid).amountRaised
      = contribSum (step op s) cid + (step op s).refunded cid :=
  ⟨(inv_reachable h).raisedEq cid,
   fun op => (inv_step op (inv_reachable h)).raisedEq cid⟩

theorem c1_ledger_invariant_witness :
    (sR3.campaigns 1).amountRaised = contribSum sR3 1 + sR3.refunded 1 ∧
    ((step opWithdrawW sR3).campaigns 1).amountRaised
      = contribSum (step opWithdrawW sR3) 1 + (step opWithdrawW sR3).refunded 1 :=
  ⟨(c1_ledger_invariant (Reachable.step opRefundR reachable_sR) 1).1,
   (c1_ledger_invariant (Reachable.step opRefundR reachable_sR) 1).2 opWithdrawW⟩

/-- Claim C5: in every reachable state, for every index i > 0, milestone i is
completed only if milestone i-1 is already released (hence it is released
only if milestone i-1 is released), and `completeMilestone` fails at index i
whenever milestone i-1 is not released: milestones drain strictly in index
order. -/
theorem c5_milestone_order {s : State} (h : Reachable s) (cid i : Nat)
    (h0 : 0 < i) :
    ((s.milestones cid i).completed = true → (s.milestones cid (i - 1)).released = true) ∧
    ((s.milestones cid i).released = true → (s.milestones cid (i - 1)).released = true) ∧
    ((s.milestones cid (i - 1)).released = false →
      ∀ (sender : Nat) (s' : State), completeMilestone s sender cid i ≠ .ok s') := by
  have hI := inv_reachable h
  refine ⟨hI.msOrder cid i h0, ?_, ?_⟩
  · intro hrel
    exact hI.msOrder cid i h0 (hI.msRelComp cid i hrel)
  · intro hprev sender s' hok
    have helim := completeMilestone_ok_elim hok
    rw [helim.2.2.2.2.2.1 h0] at hprev
    exact absurd hprev (by simp)

theorem c5_milestone_order_witness :
    (sM6.milestones 1 0).released = true :=
  (c5_milestone_order reachable_sM6 1 1 (by decide)).1 (by decide)

/-- Claim C10: `getMilestone` performs no existence or bounds check — in any
reachable state it returns the all-default milestone record for a
non-existing campaign or an out-of-range index — whereas `getAllMilestones`
and `getCampaign` fail with NotFound for a non-existing campaign. -/
theorem c10_getMilestone_unchecked {s : State} (h : Reachable s) (cid mid : Nat) :
    ((s.campaigns cid).exists_ = false →
      getMilestone s cid mid = defaultMilestone ∧
      getAllMilestones s cid = .error (.notFoundError "Campaign does not exist") ∧
      getCampaign s cid = .error (.notFoundError "Campaign does not exist")) ∧
    ((s.campaigns cid).exists_ = true →
      (s.campaigns cid).milestoneCount ≤ mid →
      getMilestone s cid mid = defaultMilestone) := by
  have hI := inv_reachable h
  constructor
  · intro hne
    refine ⟨hI.msDefault cid mid (Or.inl hne), ?_, ?_⟩
    · unfold getAllMilestones
      rw [if_neg (by simp [hne])]
    · unfold getCampaign
      rw [if_neg (by simp [hne])]
  · intro _ hge
    exact hI.msDefault cid mid (Or.inr hge)

theorem c10_getMilestone_unchecked_witness :
    getMilestone sM 2 0 = defaultMilestone ∧
    getAllMilestones sM 2 = .error (.notFoundError "Campaign does not exist") ∧
    getCampaign sM 2 = .error (.notFoundError "Campaign does not exist") ∧
    getMilestone sM 1 5 = defaultMilestone := by
  have h1 := (c10_getMilestone_unchecked reachable_sM 2 0).1 (by decide)
  have h2 := (c10_getMilestone_unchecked reachable_sM 1 5).2 (by decide) (by decide)
  exact ⟨h1.1, h1.2.1, h1.2.2, h2⟩

/-- Claim C3: with an always-accepting transfer target, `withdrawFunds`
succeeds iff the actor is the creator, the campaign exists, the deadline has
passed, it is not yet withdrawn, the goal is reached and there is no
milestone plan; on success it sets withdrawn, transfers exactly
`amountRaised` to the creator, can never succeed again for this campaign,
and an immediate second call fails with StateError "Funds already withdrawn"
leaving the state unchanged. -/
theorem c3_withdraw_spec {s : State} (h : Reachable s) (xfer : Xfer)
    (hx : ∀ r a st, xfer r a st = true) (sender now cid : Nat) :
    (execOk (Op.withdrawFunds xfer sender now cid) s = true ↔
      (sender = (s.campaigns cid).creator ∧ (s.campaigns cid).exists_ = true ∧
       (s.campaigns cid).deadline ≤ now ∧ (s.campaigns cid).withdrawn = false ∧
       (s.campaigns cid).goalAmount ≤ (s.campaigns cid).amountRaised ∧
       (s.campaigns cid).milestoneCount = 0)) ∧
    (∀ s', withdrawFunds xfer s sender now cid = .ok s' →
      (s'.campaigns cid).withdrawn = true ∧
      s'.transfers = ((s.campaigns cid).creator, (s.campaigns cid).amountRaised) :: s.transfers ∧
      (∀ (xfer' : Xfer) (sender' now' : Nat) (s'' : State),
        withdrawFunds xfer' s' sender' now' cid ≠ .ok s'') ∧
      withdrawFunds xfer s' sender now cid = .error (.stateError "Funds already withdrawn") ∧
      step (Op.withdrawFunds xfer sender now cid) s' = s') := by
  constructor
  · constructor
    · intro hok
      obtain ⟨s', hs'⟩ := execOk_true_iff.mp hok
      have helim := withdrawFunds_ok_elim hs'
      exact ⟨helim.2.2.1, helim.1, helim.2.1, helim.2.2.2.1,
        helim.2.2.2.2.1, helim.2.2.2.2.2.2.1⟩
    · rintro ⟨hcr, hex, hdl, hwd, hgoal, hmc⟩
      have hnz : 0 < (s.campaigns cid).amountRaised := by
        have := (inv_reachable h).goalPos cid hex
        omega
      have heq := withdrawFunds_eq xfer s sender now cid hex hdl hcr hwd hgoal hnz hmc
      rw [hx, if_pos rfl] at heq
      exact execOk_true_iff.mpr ⟨_, heq⟩
  · intro s' hok
    obtain ⟨hex, hdl, hcr, hwd, hgoal, hnz, hmc, hxt, hs'⟩ := withdrawFunds_ok_elim hok
    subst hs'
    have hwd' : ((logTransfer (withdrawMark s cid) ((s.campaigns cid).creator)
        ((s.campaigns cid).amountRaised)).campaigns cid).withdrawn = true := by
      dsimp only [logTransfer, withdrawMark]
      rw [if_pos rfl]
    have hex' : ((logTransfer (withdrawMark s cid) ((s.campaigns cid).creator)
        ((s.campaigns cid).amountRaised)).campaigns cid).exists_ = true := by
      dsimp only [logTransfer, withdrawMark]
      rw [if_pos rfl]
      exact hex
    have hdl' : ((logTransfer (withdrawMark s cid) ((s.campaigns cid).creator)
        ((s.campaigns cid).amountRaised)).campaigns cid).deadline ≤ now := by
      dsimp only [logTransfer, withdrawMark]
      rw [if_pos rfl]
      exact hdl
    have hcr' : sender = ((logTransfer (withdrawMark s cid) ((s.campaigns cid).creator)
        ((s.campaigns cid).amountRaised)).campaigns cid).creator := by
      dsimp only [logTransfer, withdrawMark]
      rw [if_pos rfl]
      exact hcr
    have herr := withdrawFunds_already xfer _ sender now cid hex' hdl' hcr' hwd'
    refine ⟨hwd', rfl, ?_, herr, step_eq_of_error herr⟩
    intro xfer' sender' now' s'' hok'
    exact withdrawFunds_not_ok_of_withdrawn hwd' s'' hok'

theorem c3_withdraw_spec_witness :
    execOk (Op.withdrawFunds trueXfer 1 oneDay 1) sW = true ∧
    (sW3.campaigns 1).withdrawn = true ∧
    sW3.transfers = (1, 10) :: sW.transfers ∧
    withdrawFunds trueXfer sW3 1 oneDay 1 = .error (.stateError "Funds already withdrawn") := by
  have hth := c3_withdraw_spec reachable_sW trueXfer (fun _ _ _ => rfl) 1 oneDay 1
  have hok : withdrawFunds trueXfer sW 1 oneDay 1 = .ok sW3 :=
    exec_eq_ok_of_execOk opWithdrawW sW (by decide)
  have h2 := hth.2 sW3 hok
  exact ⟨hth.1.mpr (by decide), h2.1, h2.2.1, h2.2.2.2.1⟩

/-- Claim C4: with an always-accepting transfer target, `refund` succeeds iff
the campaign exists, the deadline has passed, the goal is not reached and the
contributor's recorded balance is positive; on success it zeroes exactly that
balance and transfers the pre-call balance back; it can never succeed again
for that contributor, and an immediate second call fails with StateError
"No contribution to refund" leaving the state unchanged. -/
theorem c4_refund_spec (xfer : Xfer) (hx : ∀ r a st, xfer r a st = true)
    (s : State) (sender now cid : Nat) :
    (execOk (Op.refund xfer sender now cid) s = true ↔
      ((s.campaigns cid).exists_ = true ∧ (s.campaigns cid).deadline ≤ now ∧
       (s.campaigns cid).amountRaised < (s.campaigns cid).goalAmount ∧
       0 < s.contributions cid sender)) ∧
    (∀ s', refund xfer s sender now cid = .ok s' →
      s'.contributions cid sender = 0 ∧
      s'.transfers = (sender, s.contributions cid sender) :: s.transfers ∧
      (∀ (xfer' : Xfer) (now' : Nat) (s'' : State),
        refund xfer' s' sender now' cid ≠ .ok s'') ∧
      refund xfer s' sender now cid = .error (.stateError "No contribution to refund") ∧
      step (Op.refund xfer sender now cid) s' = s') := by
  constructor
  · constructor
    · intro hok
      obtain ⟨s', hs'⟩ := execOk_true_iff.mp hok
      have helim := refund_ok_elim hs'
      exact ⟨helim.1, helim.2.1, helim.2.2.1, helim.2.2.2.1⟩
    · rintro ⟨hex, hdl, hlt, hbal⟩
      have heq := refund_eq xfer s sender now cid hex hdl hlt hbal
      rw [hx, if_pos rfl] at heq
      exact execOk_true_iff.mpr ⟨_, heq⟩
  · intro s' hok
    obtain ⟨hex, hdl, hlt, hbal, hxt, hs'⟩ := refund_ok_elim hok
    subst hs'
    have hz' : (logTransfer (refundZero s cid sender) sender
        (s.contributions cid sender)).contributions cid sender = 0 := by
      dsimp only [logTransfer, refundZero]
      rw [if_pos ⟨rfl, rfl⟩]
    have hex' : ((logTransfer (refundZero s cid sender) sender
        (s.contributions cid sender)).campaigns cid).exists_ = true := hex
    have hlt' : ((logTransfer (refundZero s cid sender) sender
        (s.contributions cid sender)).campaigns cid).amountRaised <
        ((logTransfer (refundZero s cid sender) sender
          (s.contributions cid sender)).campaigns cid).goalAmount := hlt
    have herr := refund_nocontrib xfer _ sender now cid hex' hdl hlt' hz'
    refine ⟨hz', rfl, ?_, herr, step_eq_of_error herr⟩
    intro xfer' now' s'' hok'
    exact refund_not_ok_of_zero hz' s'' hok'

theorem c4_refund_spec_witness :
    execOk (Op.refund trueXfer 2 oneDay 1) sR = true ∧
    sR3.contributions 1 2 = 0 ∧
    sR3.transfers = (2, 5) :: sR.transfers ∧
    refund trueXfer sR3 2 oneDay 1 = .error (.stateError "No contribution to refund") := by
  have hth := c4_refund_spec trueXfer (fun _ _ _ => rfl) sR 2 oneDay 1
  have hok : refund trueXfer sR 2 oneDay 1 = .ok sR3 :=
    exec_eq_ok_of_execOk opRefundR sR (by decide)
  have h2 := hth.2 sR3 hok
  exact ⟨hth.1.mpr (by decide), h2.1, h2.2.1, h2.2.2.2.1⟩

theorem releaseMilestone_eq (xfer : Xfer) (s : State) (sender cid mid : Nat)
    (hex : (s.campaigns cid).exists_ = true)
    (hcr : sender = (s.campaigns cid).creator)
    (hmid : mid < (s.campaigns cid).milestoneCount)
    (hgoal : (s.campaigns cid).goalAmount ≤ (s.campaigns cid).amountRaised)
    (hcomp : (s.milestones cid mid).completed = true)
    (hrel : (s.milestones cid mid).released = false)
    (hvot : (s.milestones cid mid).votesAgainst < (s.milestones cid mid).votesFor) :
    releaseMilestone xfer s sender cid mid =
      if xfer (s.campaigns cid).creator ((s.milestones cid mid).amount) (releaseMark s cid mid) then
        .ok (logTransfer (releaseMark s cid mid) (s.campaigns cid).creator
          ((s.milestones cid mid).amount))
      else .error (.transferError "Transfer failed") := by
  unfold releaseMilestone
  rw [if_neg (by simp [hex]), if_neg (by omega), if_neg (by omega), if_neg (by omega),
    if_neg (by simp [hcomp]), if_neg (by simp [hrel]), if_neg (by omega)]

/-- Claim C8: `releaseMilestone` succeeds only when the actor is the creator
and the milestone is completed, not yet released, and has strictly more
weighted votes for than against (a tie never releases); on success it marks
the milestone released and transfers exactly its allocated amount to the
creator. -/
theorem c8_release_spec :
    (∀ (xfer : Xfer) (s : State) (sender cid mid : Nat) (s' : State),
      releaseMilestone xfer s sender cid mid = .ok s' →
      sender = (s.campaigns cid).creator ∧
      (s.milestones cid mid).completed = true ∧
      (s.milestones cid mid).released = false ∧
      (s.milestones cid mid).votesAgainst < (s.milestones cid mid).votesFor ∧
      (s'.milestones cid mid).released = true ∧
      s'.transfers = ((s.campaigns cid).creator, (s.milestones cid mid).amount) :: s.transfers) ∧
    (∀ (xfer : Xfer) (s : State) (sender cid mid : Nat),
      (s.milestones cid mid).votesFor = (s.milestones cid mid).votesAgainst →
      ∀ s', releaseMilestone xfer s sender cid mid ≠ .ok s') := by
  constructor
  · intro xfer s sender cid mid s' hok
    obtain ⟨hex, hcr, hmid, hgoal, hcomp, hrel, hvot, hxt, hs'⟩ :=
      releaseMilestone_ok_elim hok
    subst hs'
    refine ⟨hcr, hcomp, hrel, hvot, ?_, rfl⟩
    dsimp only [logTransfer, releaseMark]
    rw [if_pos ⟨rfl, rfl⟩]
  · intro xfer s sender cid mid htie s' hok
    have hvot := (releaseMilestone_ok_elim hok).2.2.2.2.2.2.1
    omega

theorem c8_release_spec_witness :
    (sM5.milestones 1 0).released = true ∧
    sM5.transfers = (1, 4) :: sM.transfers := by
  have hok : releaseMilestone trueXfer sM 1 1 0 = .ok sM5 :=
    exec_eq_ok_of_execOk opReleaseM0 sM (by decide)
  have h1 := c8_release_spec.1 trueXfer sM 1 1 0 sM5 hok
  exact ⟨h1.2.2.2.2.1, h1.2.2.2.2.2⟩

/-- Claim C9 counterexample: in the reachable state `sM` the milestone path
drains funds while the campaign is still Active — `releaseMilestone` succeeds
at clock reading 0, strictly before the campaign's deadline of 86400, so not
every successful value-moving operation happens in the Ended state. -/
theorem c9_counterexample :
    Reachable sM ∧
    execOk (Op.releaseMilestone trueXfer 1 0 1 0) sM = true ∧
    ¬ (sM.campaigns 1).deadline ≤ 0 :=
  ⟨reachable_sM, by decide, by decide⟩

/-- Claim C9 (amended): `withdrawFunds` and `refund` succeed only once the
deadline has passed (the Ended state), but the milestone path is gated by
goal attainment, not by the deadline: a successful `releaseMilestone` only
guarantees `amountRaised >= goalAmount` and may happen while the campaign is
still Active (similarly `completeMilestone` and `voteOnMilestone` never read
the clock). -/
theorem c9_deadline_gating :
    (∀ (xfer : Xfer) (s : State) (sender now cid : Nat) (s' : State),
      withdrawFunds xfer s sender now cid = .ok s' → (s.campaigns cid).deadline ≤ now) ∧
    (∀ (xfer : Xfer) (s : State) (sender now cid : Nat) (s' : State),
      refund xfer s sender now cid = .ok s' → (s.campaigns cid).deadline ≤ now) ∧
    (∀ (xfer : Xfer) (s : State) (sender cid mid : Nat) (s' : State),
      releaseMilestone xfer s sender cid mid = .ok s' →
      (s.campaigns cid).goalAmount ≤ (s.campaigns cid).amountRaised) :=
  ⟨fun _ _ _ _ _ _ h => (withdrawFunds_ok_elim h).2.1,
   fun _ _ _ _ _ _ h => (refund_ok_elim h).2.1,
   fun _ _ _ _ _ _ h => (releaseMilestone_ok_elim h).2.2.2.1⟩

theorem c9_deadline_gating_witness :
    (sW.campaigns 1).deadline ≤ oneDay ∧ (sR.campaigns 1).deadline ≤ oneDay ∧
    (sM.campaigns 1).goalAmount ≤ (sM.campaigns 1).amountRaised :=
  ⟨c9_deadline_gating.1 trueXfer sW 1 oneDay 1 sW3
      (exec_eq_ok_of_execOk opWithdrawW sW (by decide)),
   c9_deadline_gating.2.1 trueXfer sR 2 oneDay 1 sR3
      (exec_eq_ok_of_execOk opRefundR sR (by decide)),
   c9_deadline_gating.2.2 trueXfer sM 1 1 0 sM5
      (exec_eq_ok_of_execOk opReleaseM0 sM (by decide))⟩

/-- Claim C2: in each value-moving operation the internal bookkeeping
mutation (withdrawn flag, zeroed balance, released flag) is already in force
in the state observed by the external transfer, the success state is exactly
that mutated state plus the transfer log entry (nothing is mutated after the
transfer), any failing operation leaves the state exactly as before the call,
and a failing transfer after passing guards is reported as a TransferError. -/
theorem c2_mutate_before_transfer :
    (∀ (xfer : Xfer) (s : State) (sender now cid : Nat) (s' : State),
      withdrawFunds xfer s sender now cid = .ok s' →
      ((withdrawMark s cid).campaigns cid).withdrawn = true ∧
      xfer (s.campaigns cid).creator ((s.campaigns cid).amountRaised) (withdrawMark s cid) = true ∧
      s' = logTransfer (withdrawMark s cid) (s.campaigns cid).creator
        ((s.campaigns cid).amountRaised)) ∧
    (∀ (xfer : Xfer) (s : State) (sender now cid : Nat) (s' : State),
      refund xfer s sender now cid = .ok s' →
      (refundZero s cid sender).contributions cid sender = 0 ∧
      xfer sender (s.contributions cid sender) (refundZero s cid sender) = true ∧
      s' = logTransfer (refundZero s cid sender) sender (s.contributions cid sender)) ∧
    (∀ (xfer : Xfer) (s : State) (sender cid mid : Nat) (s' : State),
      releaseMilestone xfer s sender cid mid = .ok s' →
      ((releaseMark s cid mid).milestones cid mid).released = true ∧
      xfer (s.campaigns cid).creator ((s.milestones cid mid).amount) (releaseMark s cid mid) = true ∧
      s' = logTransfer (releaseMark s cid mid) (s.campaigns cid).creator
        ((s.milestones cid mid).amount)) ∧
    (∀ (op : Op) (s : State) (e : Err), exec op s = .error e → step op s = s) ∧
    (∀ (xfer : Xfer) (s : State) (sender now cid : Nat) (s₁ : State),
      withdrawFunds trueXfer s sender now cid = .ok s₁ →
      xfer (s.campaigns cid).creator ((s.campaigns cid).amountRaised) (withdrawMark s cid) = false →
      withdrawFunds xfer s sender now cid = .error (.transferError "Transfer failed")) ∧
    (∀ (xfer : Xfer) (s : State) (sender now cid : Nat) (s₁ : State),
      refund trueXfer s sender now cid = .ok s₁ →
      xfer sender (s.contributions cid sender) (refundZero s cid sender) = false →
      refund xfer s sender now cid = .error (.transferError "Refund transfer failed")) ∧
    (∀ (xfer : Xfer) (s : State) (sender cid mid : Nat) (s₁ : State),
      releaseMilestone trueXfer s sender cid mid = .ok s₁ →
      xfer (s.campaigns cid).creator ((s.milestones cid mid).amount) (releaseMark s cid mid) = false →
      releaseMilestone xfer s sender cid mid = .error (.transferError "Transfer failed")) := by
  refine ⟨?_, ?_, ?_, ?_, ?_, ?_, ?_⟩
  · intro xfer s sender now cid s' hok
    obtain ⟨_, _, _, _, _, _, _, hxt, hs'⟩ := withdrawFunds_ok_elim hok
    refine ⟨?_, hxt, hs'⟩
    dsimp only [withdrawMark]
    rw [if_pos rfl]
  · intro xfer s sender now cid s' hok
    obtain ⟨_, _, _, _, hxt, hs'⟩ := refund_ok_elim hok
    refine ⟨?_, hxt, hs'⟩
    dsimp only [refundZero]
    rw [if_pos ⟨rfl, rfl⟩]
  · intro xfer s sender cid mid s' hok
    obtain ⟨_, _, _, _, _, _, _, hxt, hs'⟩ := releaseMilestone_ok_elim hok
    refine ⟨?_, hxt, hs'⟩
    dsimp only [releaseMark]
    rw [if_pos ⟨rfl, rfl⟩]
  · intro op s e hE
    exact step_eq_of_error hE
  · intro xfer s sender now cid s₁ hok hxf
    obtain ⟨hex, hdl, hcr, hwd, hgoal, hnz, hmc, _, _⟩ := withdrawFunds_ok_elim hok
    rw [withdrawFunds_eq xfer s sender now cid hex hdl hcr hwd hgoal hnz hmc,
      if_neg (by simp [hxf])]
  · intro xfer s sender now cid s₁ hok hxf
    obtain ⟨hex, hdl, hlt, hbal, _, _⟩ := refund_ok_elim hok
    rw [refund_eq xfer s sender now cid hex hdl hlt hbal, if_neg (by simp [hxf])]
  · intro xfer s sender cid mid s₁ hok hxf
    obtain ⟨hex, hcr, hmid, hgoal, hcomp, hrel, hvot, _, _⟩ := releaseMilestone_ok_elim hok
    rw [releaseMilestone_eq xfer s sender cid mid hex hcr hmid hgoal hcomp hrel hvot,
      if_neg (by simp [hxf])]

theorem c2_mutate_before_transfer_witness :
    ((withdrawMark sW 1).campaigns 1).withdrawn = true ∧
    sW3 = logTransfer (withdrawMark sW 1) 1 10 ∧
    (refundZero sR 1 2).contributions 1 2 = 0 ∧
    withdrawFunds (fun _ _ _ => false) sW 1 oneDay 1 = .error (.transferError "Transfer failed") ∧
    refund (fun _ _ _ => false) sR 2 oneDay 1 = .error (.transferError "Refund transfer failed") ∧
    step opWithdrawW sR3 = sR3 := by
  have hokW : withdrawFunds trueXfer sW 1 oneDay 1 = .ok sW3 :=
    exec_eq_ok_of_execOk opWithdrawW sW (by decide)
  have hokR : refund trueXfer sR 2 oneDay 1 = .ok sR3 :=
    exec_eq_ok_of_execOk opRefundR sR (by decide)
  have h1 := c2_mutate_before_transfer.1 trueXfer sW 1 oneDay 1 sW3 hokW
  have h2 := c2_mutate_before_transfer.2.1 trueXfer sR 2 oneDay 1 sR3 hokR
  refine ⟨h1.1, h1.2.2, h2.1, ?_, ?_, ?_⟩
  · exact c2_mutate_before_transfer.2.2.2.2.1 (fun _ _ _ => false) sW 1 oneDay 1 sW3 hokW rfl
  · exact c2_mutate_before_transfer.2.2.2.2.2.1 (fun _ _ _ => false) sR 2 oneDay 1 sR3 hokR rfl
  · exact c2_mutate_before_transfer.2.2.2.1 opWithdrawW sR3
      (.stateError "Funding goal not reached") (by rfl)

/-- Claim C7 counterexample: `createCampaign` called with an empty milestone
description list and the non-empty amount list [5] (so the two lists have
unequal lengths and the amounts sum to 5, not the goal 10) succeeds and
creates the campaign instead of failing with a ValidationError — the
milestone validation block is skipped whenever the description list is
empty. -/
theorem c7_counterexample :
    List.length ([] : List String) ≠ List.length [5] ∧
    List.sum [5] ≠ 10 ∧
    execOk (Op.createCampaign 1 0 "t" "d" "" "" 10 30 [] [5]) initialState = true ∧
    ((step (Op.createCampaign 1 0 "t" "d" "" "" 10 30 [] [5]) initialState).campaigns 1).exists_
      = true :=
  ⟨by decide, by decide, by decide, by decide⟩

/-- Claim C7 (amended): when the milestone description list is non-empty, a
length mismatch, a zero amount, or amounts not summing to the goal makes
`createCampaign` fail with a ValidationError and leaves the state unchanged
(no partial record); with an empty description list the milestone validation
block is skipped entirely, whatever the amount list. -/
theorem c7_create_milestone_validation (s : State) (sender now : Nat)
    (title description category imageUrl : String) (goalAmount durationInDays : Nat)
    (mDescs : List String) (mAmts : List Nat) (hne : mDescs ≠ [])
    (hviol : mDescs.length ≠ mAmts.length ∨ (∃ a ∈ mAmts, a = 0) ∨
      mAmts.sum ≠ goalAmount) :
    isValidation (execErr (Op.createCampaign sender now title description category
      imageUrl goalAmount durationInDays mDescs mAmts) s) = true ∧
    step (Op.createCampaign sender now title description category imageUrl
      goalAmount durationInDays mDescs mAmts) s = s := by
  have hlen : 0 < mDescs.length := List.length_pos.mpr hne
  have hmain : ∃ msg, createCampaign s sender now title description category
      imageUrl goalAmount durationInDays mDescs mAmts = .error (.validationError msg) := by
    unfold createCampaign
    by_cases h1 : goalAmount = 0
    · rw [if_pos h1]
      exact ⟨_, rfl⟩
    rw [if_neg h1]
    by_cases h2 : durationInDays = 0
    · rw [if_pos h2]
      exact ⟨_, rfl⟩
    rw [if_neg h2]
    by_cases h3 : 365 < durationInDays
    · rw [if_pos h3]
      exact ⟨_, rfl⟩
    rw [if_neg h3]
    by_cases h4 : title = ""
    · rw [if_pos h4]
      exact ⟨_, rfl⟩
    rw [if_neg h4]
    by_cases h5 : description = ""
    · rw [if_pos h5]
      exact ⟨_, rfl⟩
    rw [if_neg h5]
    by_cases h6 : 0 < mDescs.length ∧ mDescs.length ≠ mAmts.length
    · rw [if_pos h6]
      exact ⟨_, rfl⟩
    rw [if_neg h6]
    by_cases h7 : 0 < mDescs.length ∧ ¬ (mAmts.all fun a => 0 < a) = true
    · rw [if_pos h7]
      exact ⟨_, rfl⟩
    rw [if_neg h7]
    by_cases h8 : 0 < mDescs.length ∧ mAmts.sum ≠ goalAmount
    · rw [if_pos h8]
      exact ⟨_, rfl⟩
    exfalso
    rcases hviol with hv | hv | hv
    · exact h6 ⟨hlen, hv⟩
    · have hall : (mAmts.all fun a => 0 < a) = true := by
        by_contra hna
        exact h7 ⟨hlen, hna⟩
      obtain ⟨a, ha, ha0⟩ := hv
      have hpa := of_decide_eq_true (List.all_eq_true.mp hall a ha)
      omega
    · exact h8 ⟨hlen, hv⟩
  obtain ⟨msg, hmsg⟩ := hmain
  constructor
  · unfold execErr exec
    dsimp only
    rw [hmsg]
    rfl
  · unfold step exec
    dsimp only
    rw [hmsg]

theorem c7_create_milestone_validation_witness :
    isValidation (execErr (Op.createCampaign 1 0 "t" "d" "" "" 10 30 ["a"] [5])
      initialState) = true ∧
    step (Op.createCampaign 1 0 "t" "d" "" "" 10 30 ["a"] [5]) initialState
      = initialState :=
  c7_create_milestone_validation initialState 1 0 "t" "d" "" "" 10 30 ["a"] [5]
    (by decide) (Or.inr (Or.inr (by decide)))

/-- Claim C6: a vote is recorded at most once per (campaign, milestone,
voter): voting requires a positive cumulative contribution, a completed and
not-yet-released milestone and no prior vote; the cast adds exactly the
voter's current cumulative contribution to the chosen tally; an immediate
re-vote fails with DuplicateVote; the has-voted flag, once set, survives
every operation; and neither `contribute` nor `refund` ever changes a
milestone's tallies. -/
theorem c6_vote_unique :
    (∀ (s : State) (sender cid mid : Nat) (approve : Bool) (s' : State),
      voteOnMilestone s sender cid mid approve = .ok s' →
      0 < s.contributions cid sender ∧
      (s.milestones cid mid).completed = true ∧
      (s.milestones cid mid).released = false ∧
      s.milestoneVotes cid mid sender = false ∧
      s'.milestoneVotes cid mid sender = true ∧
      (approve = true →
        (s'.milestones cid mid).votesFor
          = (s.milestones cid mid).votesFor + s.contributions cid sender ∧
        (s'.milestones cid mid).votesAgainst = (s.milestones cid mid).votesAgainst) ∧
      (approve = false →
        (s'.milestones cid mid).votesAgainst
          = (s.milestones cid mid).votesAgainst + s.contributions cid sender ∧
        (s'.milestones cid mid).votesFor = (s.milestones cid mid).votesFor) ∧
      (∀ approve2 : Bool,
        voteOnMilestone s' sender cid mid approve2
          = .error (.duplicateVote "Already voted"))) ∧
    (∀ (op : Op) (s : State) (c m v : Nat),
      s.milestoneVotes c m v = true → (step op s).milestoneVotes c m v = true) ∧
    (∀ (s : State) (sender now cid value c m : Nat),
      (step (Op.contribute sender now cid value) s).milestones c m = s.milestones c m) ∧
    (∀ (xfer : Xfer) (s : State) (sender now cid c m : Nat),
      (step (Op.refund xfer sender now cid) s).milestones c m = s.milestones c m) := by
  refine ⟨?_, ?_, ?_, ?_⟩
  · intro s sender cid mid approve s' hok
    obtain ⟨hex, hcon, hmid, hcomp, hrel, hvoted, hs'⟩ := voteOnMilestone_ok_elim hok
    subst hs'
    have hvoted' : ({ s with
        milestoneVotes := fun c i a =>
          if c = cid ∧ i = mid ∧ a = sender then true else s.milestoneVotes c i a,
        milestones := fun c i =>
          if c = cid ∧ i = mid then
            if approve then
              { s.milestones c i with
                votesFor := (s.milestones c i).votesFor + s.contributions cid sender }
            else
              { s.milestones c i with
                votesAgainst := (s.milestones c i).votesAgainst + s.contributions cid sender }
          else s.milestones c i } : State).milestoneVotes cid mid sender = true := by
      dsimp only
      rw [if_pos ⟨rfl, rfl, rfl⟩]
    refine ⟨hcon, hcomp, hrel, hvoted, hvoted', ?_, ?_, ?_⟩
    · intro hap
      subst hap
      dsimp only
      rw [if_pos ⟨rfl, rfl⟩]
      exact ⟨by simp, by simp⟩
    · intro hap
      subst hap
      dsimp only
      rw [if_pos ⟨rfl, rfl⟩]
      exact ⟨by simp, by simp⟩
    · intro approve2
      apply voteOnMilestone_dup
      · exact hex
      · exact hcon
      · exact hmid
      · dsimp only
        rw [if_pos ⟨rfl, rfl⟩]
        cases approve <;> simpa using hcomp
      · dsimp only
        rw [if_pos ⟨rfl, rfl⟩]
        cases approve <;> simpa using hrel
      · exact hvoted'
  · intro op s c m v hv
    rcases hE : exec op s with e | s'
    · rw [step_eq_of_error hE]
      exact hv
    · have hstep : step op s = s' := by
        unfold step
        rw [hE]
      rw [hstep]
      cases op with
      | createCampaign sender now t d cat img g dur mds mas =>
        obtain ⟨_, hs'⟩ := createCampaign_ok_elim hE
        subst hs'
        exact hv
      | contribute sender now cid value =>
        obtain ⟨_, _, _, hs'⟩ := contribute_ok_elim hE
        subst hs'
        exact hv
      | completeMilestone sender now cid mid =>
        obtain ⟨_, _, _, _, _, _, hs'⟩ := completeMilestone_ok_elim hE
        subst hs'
        exact hv
      | voteOnMilestone sender now cid mid ap =>
        obtain ⟨_, _, _, _, _, _, hs'⟩ := voteOnMilestone_ok_elim hE
        subst hs'
        dsimp only
        by_cases hc : c = cid ∧ m = mid ∧ v = sender
        · rw [if_pos hc]
        · rw [if_neg hc]
          exact hv
      | releaseMilestone xfer sender now cid mid =>
        obtain ⟨_, _, _, _, _, _, _, _, hs'⟩ := releaseMilestone_ok_elim hE
        subst hs'
        exact hv
      | withdrawFunds xfer sender now cid =>
        obtain ⟨_, _, _, _, _, _, _, _, hs'⟩ := withdrawFunds_ok_elim hE
        subst hs'
        exact hv
      | refund xfer sender now cid =>
        obtain ⟨_, _, _, _, _, hs'⟩ := refund_ok_elim hE
        subst hs'
        exact hv
  · intro s sender now cid value c m
    rcases hE : exec (Op.contribute sender now cid value) s with e | s'
    · rw [step_eq_of_error hE]
    · have hstep : step (Op.contribute sender now cid value) s = s' := by
        unfold step
        rw [hE]
      rw [hstep]
      obtain ⟨_, _, _, hs'⟩ := contribute_ok_elim hE
      subst hs'
      rfl
  · intro xfer s sender now cid c m
    rcases hE : exec (Op.refund xfer sender now cid) s with e | s'
    · rw [step_eq_of_error hE]
    · have hstep : step (Op.refund xfer sender now cid) s = s' := by
        unfold step
        rw [hE]
      rw [hstep]
      obtain ⟨_, _, _, _, _, hs'⟩ := refund_ok_elim hE
      subst hs'
      rfl

theorem c6_vote_unique_witness :
    sM.milestoneVotes 1 0 2 = true ∧
    (sM.milestones 1 0).votesFor
      = (sMpre.milestones 1 0).votesFor + sMpre.contributions 1 2 ∧
    voteOnMilestone sM 2 1 0 true = .error (.duplicateVote "Already voted") ∧
    (step (Op.contribute 3 0 1 7) sM).milestones 1 0 = sM.milestones 1 0 := by
  have hok : voteOnMilestone sMpre 2 1 0 true = .ok sM :=
    exec_eq_ok_of_execOk opVoteM0 sMpre (by decide)
  have h1 := c6_vote_unique.1 sMpre 2 1 0 true sM hok
  exact ⟨h1.2.2.2.2.1, (h1.2.2.2.2.2.1 rfl).1, h1.2.2.2.2.2.2.2 true,
    c6_vote_unique.2.2.1 sM 3 0 1 7 1 0⟩

end CrowdfundingV2
